import Mathlib

/-!
# Verification of the `category` library (`result` and `option` packages)

Shallow embedding of `src/result/result.go` and `src/option/option.go`.

Modelling conventions

* A Go value of interface type `error` is either the nil interface or a
  non-nil error.  It is embedded as `error E = Option E`: `none` is `nil`,
  `some e` is a non-nil error whose content is `e : E`.  The test
  `err != nil` is `err.isSome`, the test `err == nil` is `err.isNone`.
* `var zero T` is `(default : T)` of an `Inhabited T` instance
  (`0` for `Nat`, `""` for `String`, `false` for `Bool`).
* The interface `Result[T]` (resp. `Option[T]`) has exactly one
  implementation in the repository, the unexported struct `result[T]`
  (resp. `option[T]`); an interface value is embedded as that struct.
* A Go function returning a closure is embedded as a curried function.
* Equality of containers is equality of the two struct fields.
-/

set_option linter.dupNamespace false

/-- Go's `error` interface: `none` is `nil`, `some e` a non-nil error. -/
abbrev error (E : Type) := Option E

namespace errors

/-- Go's `errors.New`: a non-nil error carrying the given text. -/
def New (text : String) : error String := some text

end errors

/-! ## Package `result` -/

namespace result

/-- The struct `result[T]` of `result.go`, lines 15-18. -/
structure result (E T : Type) where
  maybeValue : T
  maybeErr : error E
deriving DecidableEq, Repr

variable {E T R A B C : Type}

/-- Method `Unwrap` of `result[T]`, lines 20-26. -/
def result.Unwrap [Inhabited T] (res : result E T) : T × error E :=
  if res.maybeErr.isSome then
    let zero : T := default
    (zero, res.maybeErr)
  else
    (res.maybeValue, none)

/-- Method `IsOk` of `result[T]`, lines 28-30. -/
def result.IsOk (res : result E T) : Bool :=
  res.maybeErr.isNone

/-- Method `IsError` of `result[T]`, lines 32-34. -/
def result.IsError (res : result E T) : Bool :=
  res.maybeErr.isSome

/-- Function `Ok`, lines 37-39. -/
def Ok (x : T) : result E T :=
  { maybeValue := x, maybeErr := none }

/-- Function `Error`, lines 42-45. -/
def Error [Inhabited T] (err : error E) : result E T :=
  let zero : T := default
  { maybeValue := zero, maybeErr := err }

/-- Function `Lift`, lines 49-58. -/
def Lift [Inhabited T] [Inhabited R] (f : T → R) : result E T → result E R :=
  fun x =>
    let (xValue, err) := x.Unwrap
    if err.isSome then
      Error err
    else
      Ok (f xValue)

/-- Function `Lift2`, lines 63-77. -/
def Lift2 [Inhabited A] [Inhabited B] [Inhabited C] (f : A → B → C) :
    result E A → result E B → result E C :=
  fun x y =>
    let (xValue, err) := x.Unwrap
    if err.isSome then
      Error err
    else
      let (yValue, err) := y.Unwrap
      if err.isSome then
        Error err
      else
        Ok (f xValue yValue)

/-- Function `Bind`, lines 82-91. -/
def Bind [Inhabited T] [Inhabited R] (f : T → result E R) : result E T → result E R :=
  fun x =>
    let (xValue, err) := x.Unwrap
    if err.isSome then
      Error err
    else
      f xValue

/-- Function `Wrap`, lines 94-100. -/
def Wrap [Inhabited T] (value : T) (err : error E) : result E T :=
  if err.isSome then
    Error err
  else
    Ok value

/-- Function `Kliesli`, lines 103-107. -/
def Kliesli [Inhabited B] [Inhabited C] (f : A → result E B) (g : B → result E C) :
    A → result E C :=
  fun x => Bind g (f x)

/-- The payload-exclusivity invariant of a `result[T]`: it is Ok-valued with a
nil error, or Error-valued with the zero value of `T` stored as its value. -/
def Exclusive [Inhabited T] (r : result E T) : Prop :=
  (r.IsOk = true ∧ r.maybeErr = none) ∨ (r.IsError = true ∧ r.maybeValue = default)

/-- The invariant is a decidable property of a concrete result. -/
instance instDecidableExclusive [Inhabited T] [DecidableEq T] [DecidableEq E]
    (r : result E T) : Decidable (Exclusive r) := by
  unfold Exclusive
  infer_instance

end result

/-! ## Package `option` -/

namespace option

/-- The struct `option[T]` of `option.go`, lines 19-22. -/
structure option (T : Type) where
  maybeValue : T
  isSome : Bool
deriving DecidableEq, Repr

variable {E T R A B C : Type}

/-- Method `Unwrap` of `option[T]`, lines 24-30. -/
def option.Unwrap [Inhabited T] (opt : option T) : T × error String :=
  if !opt.isSome then
    let zero : T := default
    (zero, errors.New "unwrapped nothing-value")
  else
    (opt.maybeValue, none)

/-- Method `IsNothing` of `option[T]`, lines 32-34. -/
def option.IsNothing (opt : option T) : Bool :=
  !opt.isSome

/-- Method `IsSome` of `option[T]`, lines 36-38. -/
def option.IsSome (opt : option T) : Bool :=
  opt.isSome

/-- Function `Some`, lines 41-43. -/
def Some (x : T) : option T :=
  { maybeValue := x, isSome := true }

/-- Function `Nothing`, lines 46-49. -/
def Nothing [Inhabited T] : option T :=
  let zero : T := default
  { maybeValue := zero, isSome := false }

/-- Function `Lift`, lines 53-62. -/
def Lift [Inhabited T] [Inhabited R] (f : T → R) : option T → option R :=
  fun x =>
    let (xValue, err) := x.Unwrap
    if err.isSome then
      Nothing
    else
      Some (f xValue)

/-- Function `Lift2`, lines 67-81. -/
def Lift2 [Inhabited A] [Inhabited B] [Inhabited C] (f : A → B → C) :
    option A → option B → option C :=
  fun x y =>
    let (xValue, err) := x.Unwrap
    if err.isSome then
      Nothing
    else
      let (yValue, err) := y.Unwrap
      if err.isSome then
        Nothing
      else
        Some (f xValue yValue)

/-- Function `Bind`, lines 86-95. -/
def Bind [Inhabited T] [Inhabited R] (f : T → option R) : option T → option R :=
  fun x =>
    let (xValue, err) := x.Unwrap
    if err.isSome then
      Nothing
    else
      f xValue

/-- Function `Wrap`, lines 98-104. -/
def Wrap [Inhabited T] (value : T) (err : error E) : option T :=
  if err.isSome then
    Nothing
  else
    Some value

/-- The invariant of an `option[T]`: exactly one of `IsSome()`, `IsNothing()` is
true, and a Nothing-valued option stores the zero value of `T`. -/
def Canonical [Inhabited T] (o : option T) : Prop :=
  ((o.IsSome = true ∧ o.IsNothing = false) ∨ (o.IsSome = false ∧ o.IsNothing = true)) ∧
  (o.IsNothing = true → o.maybeValue = default)

/-- The invariant is a decidable property of a concrete option. -/
instance instDecidableCanonical [Inhabited T] [DecidableEq T] (o : option T) :
    Decidable (Canonical o) := by
  unfold Canonical
  infer_instance

end option

/-! ## Theorems about package `result` -/

namespace result

variable {E T R A B C : Type}

/-- Unfolding of `Unwrap` on a result whose stored error is non-nil. -/
lemma Unwrap_of_err [Inhabited T] (x : result E T) (e : E) (h : x.maybeErr = some e) :
    x.Unwrap = (default, some e) := by
  simp [result.Unwrap, h]

/-- Unfolding of `Unwrap` on a result whose stored error is nil. -/
lemma Unwrap_of_nil [Inhabited T] (x : result E T) (h : x.maybeErr = none) :
    x.Unwrap = (x.maybeValue, none) := by
  simp [result.Unwrap, h]

/-- The invariant is not vacuous: a struct value holding both a non-zero value
and a non-nil error violates it (no function of the package builds one). -/
lemma not_Exclusive_of_both :
    ¬ Exclusive ({ maybeValue := 5, maybeErr := some "e" } : result String Nat) := by
  decide

/-- C1: at the input `Error[T](nil)` the code does not do what the claim and the
doc comment of `Error` ("Error creates an Error-valued result") say: the result
stores a nil error, so `IsError()` is false and `IsOk()` is true. -/
theorem result_Error_nil_is_Ok :
    ((Error (none : error String) : result String Nat).IsError = false ∧
      (Error (none : error String) : result String Nat).IsOk = true) ∧
    ¬ ((Error (none : error String) : result String Nat).IsError = true ∧
      (Error (none : error String) : result String Nat).IsOk = false) := by
  decide

/-- On every other input the tags are as documented: for every value `v`, `Ok(v)`
is Ok-valued (`IsOk()` true, `IsError()` false), and for every non-nil error
`err`, `Error[T](err)` is Error-valued (`IsError()` true, `IsOk()` false). -/
theorem result_Ok_Error_tags [Inhabited T] (v : T) (err : error E) (h : err ≠ none) :
    ((Ok v : result E T).IsOk = true ∧ (Ok v : result E T).IsError = false) ∧
    ((Error err : result E T).IsError = true ∧ (Error err : result E T).IsOk = false) := by
  cases err with
  | none => exact absurd rfl h
  | some e => simp [Ok, Error, result.IsOk, result.IsError]

/-- The tags of `Ok(5)` and of `Error("test error")`, as in `TestIsOk` and
`TestIsError`. -/
theorem result_Ok_Error_tags_witness :
    ((Ok 5 : result String Nat).IsOk = true ∧ (Ok 5 : result String Nat).IsError = false) ∧
    ((Error (some "test error") : result String Nat).IsError = true ∧
      (Error (some "test error") : result String Nat).IsOk = false) :=
  result_Ok_Error_tags 5 (some "test error") (by decide)

/-- C2: when both operands of `Lift2(f)` are Error-valued, carrying `e1` (left)
and `e2` (right), the result equals `Error[C](e1)`; it is the right operand's
error only if the two errors are equal. -/
theorem result_Lift2_both_failed [Inhabited A] [Inhabited B] [Inhabited C]
    (f : A → B → C) (x : result E A) (y : result E B) (e1 e2 : E)
    (hx : x.maybeErr = some e1) (hy : y.maybeErr = some e2) :
    x.IsError = true ∧ y.IsError = true ∧
    Lift2 f x y = Error (some e1) ∧
    (e1 ≠ e2 → Lift2 f x y ≠ Error (some e2)) := by
  have hL : Lift2 f x y = Error (some e1) := by
    simp [Lift2, Unwrap_of_err x e1 hx]
  refine ⟨by simp [result.IsError, hx], by simp [result.IsError, hy], hL, ?_⟩
  intro hne hEq
  rw [hL] at hEq
  apply hne
  simpa [Error] using hEq

/-- C2 on the operands of `TestLift2`: both failed, the left error comes back. -/
theorem result_Lift2_both_failed_witness :
    (Error (some "test error 1") : result String String).IsError = true ∧
    (Error (some "test error 2") : result String Nat).IsError = true ∧
    Lift2 (fun (s : String) (n : Nat) => s.length - n)
        (Error (some "test error 1")) (Error (some "test error 2"))
      = (Error (some "test error 1") : result String Nat) ∧
    ("test error 1" ≠ "test error 2" →
      Lift2 (fun (s : String) (n : Nat) => s.length - n)
        (Error (some "test error 1")) (Error (some "test error 2"))
      ≠ (Error (some "test error 2") : result String Nat)) :=
  result_Lift2_both_failed (fun (s : String) (n : Nat) => s.length - n)
    (Error (some "test error 1")) (Error (some "test error 2"))
    "test error 1" "test error 2" rfl rfl

/-- C3: `Lift2(f)(Ok(a), Ok(b))` equals `Ok(f(a, b))`; when exactly one operand
is Error-valued, with error `e`, the result equals `Error[C](e)`; and
`Lift2(f)(x, y)` is Ok-valued if and only if both `x` and `y` are Ok-valued. -/
theorem result_Lift2_spec [Inhabited A] [Inhabited B] [Inhabited C] (f : A → B → C) :
    (∀ (a : A) (b : B), Lift2 f (Ok a : result E A) (Ok b) = Ok (f a b)) ∧
    (∀ (x : result E A) (y : result E B) (e : E),
      x.maybeErr = some e → y.IsOk = true → Lift2 f x y = Error (some e)) ∧
    (∀ (x : result E A) (y : result E B) (e : E),
      x.IsOk = true → y.maybeErr = some e → Lift2 f x y = Error (some e)) ∧
    (∀ (x : result E A) (y : result E B),
      (Lift2 f x y).IsOk = true ↔ (x.IsOk = true ∧ y.IsOk = true)) := by
  refine ⟨?_, ?_, ?_, ?_⟩
  · intro a b
    simp [Lift2, result.Unwrap, Ok]
  · intro x y e hx _
    simp [Lift2, Unwrap_of_err x e hx]
  · intro x y e hx hy
    have hx0 : x.maybeErr = none := by simpa [result.IsOk] using hx
    simp [Lift2, Unwrap_of_nil x hx0, Unwrap_of_err y e hy]
  · intro x y
    rcases x with ⟨xv, _ | ex⟩ <;> rcases y with ⟨yv, _ | ey⟩ <;>
      simp [Lift2, result.Unwrap, Ok, Error, result.IsOk]

/-- C3 on the operands of `TestLift2` (with a natural-number base function): the
left operand alone has failed, and its error is the result. -/
theorem result_Lift2_spec_witness :
    (Error (some "test error 1") : result String String).maybeErr = some "test error 1" ∧
    (Ok 2 : result String Nat).IsOk = true ∧
    Lift2 (fun (s : String) (n : Nat) => s.length - n) (Error (some "test error 1")) (Ok 2)
      = (Error (some "test error 1") : result String Nat) :=
  ⟨rfl, rfl,
    (result_Lift2_spec (fun (s : String) (n : Nat) => s.length - n)).2.1
      (Error (some "test error 1")) (Ok 2) "test error 1" rfl rfl⟩

/-- C4: `Kliesli(f, g)(a)` equals `Bind(g)(f(a))`; if `f(a)` is Error-valued with
error `e`, the composition equals `Error[C](e)` for every second stage; if
`f(a)` is Ok-valued with value `b`, the composition equals `g(b)`, so that it
fails with the error of `g(b)` when `g(b)` fails. -/
theorem result_Kliesli_spec [Inhabited B] [Inhabited C]
    (f : A → result E B) (g : B → result E C) (a : A) :
    Kliesli f g a = Bind g (f a) ∧
    (∀ e : E, (f a).maybeErr = some e →
      ∀ g2 : B → result E C, Kliesli f g2 a = Error (some e)) ∧
    (∀ b : B, (f a).IsOk = true → (f a).Unwrap = (b, none) →
      Kliesli f g a = g b ∧
      ∀ e : E, (g b).maybeErr = some e → (Kliesli f g a).Unwrap = (default, some e)) := by
  refine ⟨rfl, ?_, ?_⟩
  · intro e he g2
    simp [Kliesli, Bind, Unwrap_of_err (f a) e he]
  · intro b _ hb
    have hK : Kliesli f g a = g b := by
      simp [Kliesli, Bind, hb]
    refine ⟨hK, ?_⟩
    intro e he
    rw [hK]
    exact Unwrap_of_err (g b) e he

/-- C4 on the second scenario of `TestKliesli`: the first stage succeeds with `0`
and the second stage fails there, so the composition is the second failure. -/
theorem result_Kliesli_spec_witness :
    Kliesli
        (fun s : String =>
          if s = "fnord" then (Error (some "forbidden string") : result String Nat)
          else Ok s.length)
        (fun n : Nat =>
          if n = 0 then (Error (some "divide by zero") : result String Nat) else Ok (12 / n))
        ""
      = (Error (some "divide by zero") : result String Nat) :=
  ((result_Kliesli_spec
      (fun s : String =>
        if s = "fnord" then (Error (some "forbidden string") : result String Nat)
        else Ok s.length)
      (fun n : Nat =>
        if n = 0 then (Error (some "divide by zero") : result String Nat) else Ok (12 / n))
      "").2.2 0 (by decide) (by decide)).1

/-- C5: `Lift(f)(Ok(x))` equals `Ok(f(x))`, and for an Error-valued `r` carrying
error `e`, `Lift(f)(r)` equals `Error[R](e)`, whatever `f` is. -/
theorem result_Lift_spec [Inhabited T] [Inhabited R] (f : T → R) (x : T)
    (r : result E T) (e : E) (hr : r.maybeErr = some e) :
    Lift f (Ok x : result E T) = Ok (f x) ∧
    r.IsError = true ∧
    Lift f r = Error (some e) ∧
    (∀ f2 : T → R, Lift f2 r = Lift f r) := by
  have hL : ∀ f2 : T → R, Lift f2 r = Error (some e) := by
    intro f2
    simp [Lift, Unwrap_of_err r e hr]
  refine ⟨?_, by simp [result.IsError, hr], hL f, ?_⟩
  · simp [Lift, result.Unwrap, Ok]
  · intro f2
    rw [hL f2, hL f]

/-- C5 on the operands of `TestLift`. -/
theorem result_Lift_spec_witness :
    Lift String.length (Ok "test" : result String String) = Ok 4 ∧
    (Error (some "test error") : result String String).IsError = true ∧
    Lift String.length (Error (some "test error") : result String String)
      = Error (some "test error") ∧
    (∀ f2 : String → Nat,
      Lift f2 (Error (some "test error") : result String String)
        = Lift String.length (Error (some "test error") : result String String)) :=
  result_Lift_spec String.length "test" (Error (some "test error")) "test error" rfl

/-- C6: `Bind(f)(Ok(x))` equals `f(x)` itself, and for an Error-valued `r` carrying
error `e`, `Bind(f)(r)` equals `Error[R](e)`, whatever `f` is. -/
theorem result_Bind_spec [Inhabited T] [Inhabited R] (f : T → result E R) (x : T)
    (r : result E T) (e : E) (hr : r.maybeErr = some e) :
    Bind f (Ok x : result E T) = f x ∧
    r.IsError = true ∧
    Bind f r = Error (some e) ∧
    (∀ f2 : T → result E R, Bind f2 r = Bind f r) := by
  have hB : ∀ f2 : T → result E R, Bind f2 r = Error (some e) := by
    intro f2
    simp [Bind, Unwrap_of_err r e hr]
  refine ⟨?_, by simp [result.IsError, hr], hB f, ?_⟩
  · simp [Bind, result.Unwrap, Ok]
  · intro f2
    rw [hB f2, hB f]

/-- C6 on the operands of `TestBind` (with a natural-number second stage). -/
theorem result_Bind_spec_witness :
    Bind (fun s : String =>
        if s.length = 0 then (Error (some "divide by zero") : result String Nat)
        else Ok (12 / s.length)) (Ok "")
      = (Error (some "divide by zero") : result String Nat) ∧
    (Error (some "test error") : result String String).IsError = true ∧
    Bind (fun s : String =>
        if s.length = 0 then (Error (some "divide by zero") : result String Nat)
        else Ok (12 / s.length)) (Error (some "test error"))
      = (Error (some "test error") : result String Nat) := by
  have h := result_Bind_spec
    (fun s : String =>
      if s.length = 0 then (Error (some "divide by zero") : result String Nat)
      else Ok (12 / s.length))
    "" (Error (some "test error")) "test error" rfl
  exact ⟨h.1.trans (by decide), h.2.1, h.2.2.1⟩

/-- C7: `Wrap(v, err)` equals `Error[T](err)` when `err` is non-nil, and then
`Unwrap` returns that same `err`; `Wrap(v, err)` equals `Ok(v)` when `err` is
nil. -/
theorem result_Wrap_spec [Inhabited T] (v : T) (err : error E) :
    (err ≠ none →
      Wrap v err = (Error err : result E T) ∧ (Wrap v err : result E T).Unwrap.2 = err) ∧
    (err = none → Wrap v err = (Ok v : result E T)) := by
  cases err with
  | none => simp [Wrap]
  | some e => simp [Wrap, Error, result.Unwrap]

/-- C7 on the two calls of `TestWrap`. -/
theorem result_Wrap_spec_witness :
    (Wrap 0 (some "divide by zero") = (Error (some "divide by zero") : result String Nat) ∧
      (Wrap 0 (some "divide by zero") : result String Nat).Unwrap.2
        = some "divide by zero") ∧
    Wrap 3 none = (Ok 3 : result String Nat) :=
  ⟨(result_Wrap_spec 0 (some "divide by zero")).1 (by decide),
    (result_Wrap_spec 3 (none : error String)).2 rfl⟩

/-- C8: `Ok(v).Unwrap()` returns `(v, nil)`, and `Error[T](e).Unwrap()` returns the
zero value of `T` together with the very `e` given at construction (this holds
for every `e`, hence for every `e` that makes `Error[T](e)` Error-valued). -/
theorem result_Unwrap_spec [Inhabited T] (v : T) (e : error E) :
    (Ok v : result E T).Unwrap = (v, none) ∧
    (Error e : result E T).Unwrap = (default, e) := by
  cases e with
  | none => simp [Ok, Error, result.Unwrap]
  | some e => simp [Ok, Error, result.Unwrap]

/-- C9: the payload-exclusivity invariant `Exclusive` holds of every result of
`Ok`, `Error` and `Wrap`, and is preserved by `Lift(f)`, `Lift2(f)`, `Bind(f)`
and `Kliesli(f, g)` (for `f`, `g` returning results that satisfy it); a result
satisfying it that is Error-valued with error `e` equals `Error[T](e)`, and
exactly one of `IsOk()`, `IsError()` is true of it. -/
theorem result_Exclusive_invariant
    [Inhabited T] [Inhabited R] [Inhabited A] [Inhabited B] [Inhabited C] :
    (∀ v : T, Exclusive (Ok v : result E T)) ∧
    (∀ err : error E, Exclusive (Error err : result E T)) ∧
    (∀ (v : T) (err : error E), Exclusive (Wrap v err : result E T)) ∧
    (∀ (f : T → R) (x : result E T), Exclusive x → Exclusive (Lift f x)) ∧
    (∀ (f : A → B → C) (x : result E A) (y : result E B),
      Exclusive x → Exclusive y → Exclusive (Lift2 f x y)) ∧
    (∀ (f : T → result E R) (x : result E T),
      (∀ t : T, Exclusive (f t)) → Exclusive x → Exclusive (Bind f x)) ∧
    (∀ (f : A → result E B) (g : B → result E C) (a : A),
      (∀ a2 : A, Exclusive (f a2)) → (∀ b : B, Exclusive (g b)) →
        Exclusive (Kliesli f g a)) ∧
    (∀ (r : result E T) (e : E),
      Exclusive r → r.IsError = true → r.Unwrap.2 = some e → r = Error (some e)) ∧
    (∀ r : result E T, Exclusive r →
      (r.IsOk = true ∧ r.IsError = false) ∨ (r.IsOk = false ∧ r.IsError = true)) := by
  have hOk : ∀ {X : Type} [Inhabited X] (v : X), Exclusive (Ok v : result E X) := by
    intro X _ v
    simp [Exclusive, Ok, result.IsOk]
  have hErr : ∀ {X : Type} [Inhabited X] (err : error E),
      Exclusive (Error err : result E X) := by
    intro X _ err
    cases err <;> simp [Exclusive, Error, result.IsOk, result.IsError]
  have hBind : ∀ (f : T → result E R) (x : result E T),
      (∀ t : T, Exclusive (f t)) → Exclusive (Bind f x) := by
    intro f x hf
    rcases x with ⟨xv, _ | ex⟩
    · simpa [Bind, result.Unwrap] using hf xv
    · simpa [Bind, result.Unwrap] using hErr (some ex)
  refine ⟨hOk, hErr, ?_, ?_, ?_, ?_, ?_, ?_, ?_⟩
  · intro v err
    cases err with
    | none => simpa [Wrap] using hOk v
    | some e => simpa [Wrap] using hErr (some e)
  · intro f x _
    rcases x with ⟨xv, _ | ex⟩
    · simpa [Lift, result.Unwrap] using hOk (f xv)
    · simpa [Lift, result.Unwrap] using hErr (some ex)
  · intro f x y _ _
    rcases x with ⟨xv, _ | ex⟩ <;> rcases y with ⟨yv, _ | ey⟩
    · simpa [Lift2, result.Unwrap] using hOk (f xv yv)
    · simpa [Lift2, result.Unwrap] using hErr (some ey)
    · simpa [Lift2, result.Unwrap] using hErr (some ex)
    · simpa [Lift2, result.Unwrap] using hErr (some ex)
  · intro f x hf _
    exact hBind f x hf
  · intro f g a _ hg
    rcases hfa : f a with ⟨bv, _ | eb⟩
    · simpa [Kliesli, Bind, result.Unwrap, hfa] using hg bv
    · simpa [Kliesli, Bind, result.Unwrap, hfa] using hErr (some eb)
  · intro r e hr _ he
    rcases r with ⟨rv, _ | er⟩
    · simp [result.Unwrap] at he
    · simp [result.Unwrap] at he
      simp [Exclusive, result.IsOk, result.IsError] at hr
      simp [Error, hr, he]
  · intro r _
    rcases r with ⟨rv, _ | er⟩ <;> simp [result.IsOk, result.IsError]

/-- C9 at concrete operands: an Error-valued operand satisfying the invariant is
mapped by `Lift`, and bound by `Bind` to a stage that satisfies it, to results
satisfying it, and it equals `Error` of its error. -/
theorem result_Exclusive_invariant_witness :
    Exclusive (Error (some "e") : result String Nat) ∧
    Exclusive (Lift (fun n : Nat => n + 1) (Error (some "e") : result String Nat)) ∧
    Exclusive (Bind (fun n : Nat => (Ok (n + 1) : result String Nat)) (Ok 3)) ∧
    (Wrap 7 (some "e") : result String Nat) = Error (some "e") :=
  ⟨by decide,
    (result_Exclusive_invariant (E := String) (T := Nat) (R := Nat) (A := Nat) (B := Nat)
      (C := Nat)).2.2.2.1 (fun n : Nat => n + 1) (Error (some "e")) (by decide),
    (result_Exclusive_invariant (E := String) (T := Nat) (R := Nat) (A := Nat) (B := Nat)
      (C := Nat)).2.2.2.2.2.1 (fun n : Nat => (Ok (n + 1) : result String Nat)) (Ok 3)
      (fun t => by simp [Exclusive, Ok, result.IsOk]) (by decide),
    (result_Exclusive_invariant (E := String) (T := Nat) (R := Nat) (A := Nat) (B := Nat)
      (C := Nat)).2.2.2.2.2.2.2.1 (Wrap 7 (some "e")) "e" (by decide) (by decide) (by decide)⟩

end result

/-! ## Theorems about package `option` -/

namespace option

variable {E T R A B C : Type}

/-- C10: `Some(x).IsSome()` is true and `Some(x).IsNothing()` is false, and
`Nothing[T]().IsNothing()` is true and `Nothing[T]().IsSome()` is false. -/
theorem option_Some_Nothing_tags [Inhabited T] (x : T) :
    ((Some x).IsSome = true ∧ (Some x).IsNothing = false) ∧
    ((Nothing : option T).IsNothing = true ∧ (Nothing : option T).IsSome = false) := by
  simp [Some, Nothing, option.IsSome, option.IsNothing]

/-- Unfolding of `Unwrap` on a Nothing-valued option. -/
lemma option_Unwrap_of_nothing [Inhabited T] (o : option T) (h : o.isSome = false) :
    o.Unwrap = (default, errors.New "unwrapped nothing-value") := by
  simp [option.Unwrap, h]

/-- Unfolding of `Unwrap` on a Some-valued option. -/
lemma option_Unwrap_of_some [Inhabited T] (o : option T) (h : o.isSome = true) :
    o.Unwrap = (o.maybeValue, none) := by
  simp [option.Unwrap, h]

/-- C11: `Some(x).Unwrap()` returns `(x, nil)`; `Nothing[T]().Unwrap()` returns the
zero value of `T` with a non-nil error; `Unwrap` returns a pair on every option,
and the error of that pair is nil if and only if the option is Some-valued. -/
theorem option_Unwrap_spec [Inhabited T] (x : T) :
    (Some x).Unwrap = (x, none) ∧
    ((Nothing : option T).Unwrap.1 = default ∧ (Nothing : option T).Unwrap.2 ≠ none) ∧
    (∀ o : option T, ∃ (v : T) (err : error String), o.Unwrap = (v, err)) ∧
    (∀ o : option T, o.Unwrap.2 = none ↔ o.IsSome = true) := by
  refine ⟨?_, ?_, ?_, ?_⟩
  · simp [Some, option.Unwrap]
  · simp [Nothing, option.Unwrap, errors.New]
  · intro o
    exact ⟨o.Unwrap.1, o.Unwrap.2, rfl⟩
  · intro o
    rcases o with ⟨v, _ | _⟩ <;> simp [option.Unwrap, option.IsSome, errors.New]

/-- C12: `Lift(f)(Some(x))` equals `Some(f(x))`, and `Lift(f)(Nothing[T]())` equals
`Nothing[R]()`. -/
theorem option_Lift_spec [Inhabited T] [Inhabited R] (f : T → R) (x : T) :
    Lift f (Some x) = Some (f x) ∧
    Lift f (Nothing : option T) = (Nothing : option R) := by
  constructor
  · simp [Lift, Some, option.Unwrap]
  · simp [Lift, Nothing, option.Unwrap, errors.New]

/-- Every option satisfying the invariant is built by `Some` or by `Nothing`, and
conversely. -/
lemma Canonical_iff_built [Inhabited T] (o : option T) :
    Canonical o ↔ ((∃ x : T, o = Some x) ∨ o = Nothing) := by
  rcases o with ⟨v, _ | _⟩
  · simp [Canonical, option.IsSome, option.IsNothing, Some, Nothing]
  · simp [Canonical, option.IsSome, option.IsNothing, Some, Nothing]

/-- A struct value that is Nothing-valued and stores a non-zero value, which no
function of the package builds, is sent by `Lift(id)` to `Nothing[T]()`. -/
lemma Lift_id_of_stale_value :
    Lift (fun n : Nat => n) ({ maybeValue := 5, isSome := false } : option Nat)
      = (Nothing : option Nat) := by
  decide

/-- C13: functor identity law of Option: `Lift(id)(o)` equals `o` (stored value and
Some/Nothing tag both equal) for every Option container `o`, that is for
`Some(x)` for every `x`, for `Nothing[T]()`, for every `Wrap(v, err)`, and for
every option satisfying the invariant of Option, which are exactly the options
built by `Some` and `Nothing`. -/
theorem option_Lift_id [Inhabited T] :
    (∀ x : T, Lift (fun t : T => t) (Some x) = Some x) ∧
    Lift (fun t : T => t) (Nothing : option T) = Nothing ∧
    (∀ (v : T) (err : error E), Lift (fun t : T => t) (Wrap v err) = Wrap v err) ∧
    (∀ o : option T, ((∃ x : T, o = Some x) ∨ o = Nothing) →
      Lift (fun t : T => t) o = o) ∧
    (∀ o : option T, Canonical o → Lift (fun t : T => t) o = o) := by
  have hS : ∀ x : T, Lift (fun t : T => t) (Some x) = Some x := by
    intro x
    simp [Lift, option.Unwrap, Some]
  have hN : Lift (fun t : T => t) (Nothing : option T) = Nothing := by
    simp [Lift, option.Unwrap, errors.New, Nothing]
  have hB : ∀ o : option T, ((∃ x : T, o = Some x) ∨ o = Nothing) →
      Lift (fun t : T => t) o = o := by
    intro o ho
    rcases ho with ⟨x, rfl⟩ | rfl
    · exact hS x
    · exact hN
  refine ⟨hS, hN, ?_, hB, ?_⟩
  · intro v err
    cases err with
    | none => simpa [Wrap] using hS v
    | some e => simpa [Wrap] using hN
  · intro o ho
    exact hB o ((Canonical_iff_built o).mp ho)

/-- C13 at the Nothing-valued option that `Wrap` builds from a failure, and at the
`Some(4)` of `TestLift`. -/
theorem option_Lift_id_witness :
    Canonical (Wrap 7 (some "e") : option Nat) ∧
    Lift (fun n : Nat => n) (Wrap 7 (some "e") : option Nat) = Wrap 7 (some "e") ∧
    Lift (fun n : Nat => n) (Some 4) = Some 4 :=
  ⟨by decide,
    (option_Lift_id (E := String) (T := Nat)).2.2.2.2 (Wrap 7 (some "e")) (by decide),
    (option_Lift_id (E := String) (T := Nat)).1 4⟩

/-- C14: `Lift2(f)(Some(a), Some(b))` equals `Some(f(a, b))`; `Lift2(f)(x, y)` equals
`Nothing[C]()` when `x` is Nothing, when `y` is Nothing, and when both are; and
`Lift2(f)(x, y)` is Some-valued if and only if both `x` and `y` are. -/
theorem option_Lift2_spec [Inhabited A] [Inhabited B] [Inhabited C] (f : A → B → C) :
    (∀ (a : A) (b : B), Lift2 f (Some a) (Some b) = Some (f a b)) ∧
    (∀ y : option B, y.IsSome = true → Lift2 f (Nothing : option A) y = Nothing) ∧
    (∀ x : option A, x.IsSome = true → Lift2 f x (Nothing : option B) = Nothing) ∧
    Lift2 f (Nothing : option A) (Nothing : option B) = Nothing ∧
    (∀ (x : option A) (y : option B),
      x.IsNothing = true ∨ y.IsNothing = true → Lift2 f x y = Nothing) ∧
    (∀ (x : option A) (y : option B),
      (Lift2 f x y).IsSome = true ↔ (x.IsSome = true ∧ y.IsSome = true)) := by
  have hN : ∀ (x : option A) (y : option B),
      x.IsNothing = true ∨ y.IsNothing = true → Lift2 f x y = Nothing := by
    intro x y h
    rcases x with ⟨xv, _ | _⟩ <;> rcases y with ⟨yv, _ | _⟩ <;>
      simp [Lift2, option.Unwrap, errors.New, option.IsNothing] at h ⊢
  refine ⟨?_, ?_, ?_, ?_, hN, ?_⟩
  · intro a b
    simp [Lift2, Some, option.Unwrap]
  · intro y _
    exact hN _ y (Or.inl (by simp [Nothing, option.IsNothing]))
  · intro x _
    exact hN x _ (Or.inr (by simp [Nothing, option.IsNothing]))
  · exact hN _ _ (Or.inl (by simp [Nothing, option.IsNothing]))
  · intro x y
    rcases x with ⟨xv, _ | _⟩ <;> rcases y with ⟨yv, _ | _⟩ <;>
      simp [Lift2, option.Unwrap, errors.New, option.IsSome, Some, Nothing]

/-- C14 on the operands of `TestLift2` (with a natural-number base function): the
right operand alone is Nothing. -/
theorem option_Lift2_spec_witness :
    (Some "test").IsSome = true ∧
    Lift2 (fun (s : String) (n : Nat) => s.length - n) (Some "test") (Nothing : option Nat)
      = (Nothing : option Nat) :=
  ⟨rfl,
    (option_Lift2_spec (fun (s : String) (n : Nat) => s.length - n)).2.2.1
      (Some "test") rfl⟩

/-- C15: `Bind(f)(Nothing[T]())` equals `Nothing[R]()`, and `Bind(f)(Some(x))` equals
`f(x)` itself, so it is Nothing whenever `f(x)` is. -/
theorem option_Bind_spec [Inhabited T] [Inhabited R] (f : T → option R) (x : T) :
    Bind f (Nothing : option T) = (Nothing : option R) ∧
    Bind f (Some x) = f x ∧
    ((f x).IsNothing = true → (Bind f (Some x)).IsNothing = true) ∧
    (f x = Nothing → Bind f (Some x) = Nothing) := by
  have hS : Bind f (Some x) = f x := by
    simp [Bind, Some, option.Unwrap]
  refine ⟨?_, hS, ?_, ?_⟩
  · simp [Bind, Nothing, option.Unwrap, errors.New]
  · intro h
    rw [hS]
    exact h
  · intro h
    rw [hS]
    exact h

/-- C15 on the second case of `TestBind` (with a natural-number stage): the stage
returns Nothing on the empty string, and so does the bound function. -/
theorem option_Bind_spec_witness :
    Bind (fun s : String => if s.length = 0 then (Nothing : option Nat) else Some (12 / s.length))
        (Some "")
      = (Nothing : option Nat) :=
  (option_Bind_spec
    (fun s : String => if s.length = 0 then (Nothing : option Nat) else Some (12 / s.length))
    "").2.2.2 (by decide)

/-- C16: `Wrap(v, err)` equals `Nothing[T]()` when `err` is non-nil and `Some(v)`
when `err` is nil; two failed wraps are equal, whatever their values and their
(non-nil) errors are. -/
theorem option_Wrap_spec [Inhabited T] {F : Type} (v : T) (err : error E) :
    (err ≠ none → (Wrap v err : option T) = Nothing) ∧
    (err = none → (Wrap v err : option T) = Some v) ∧
    (∀ (v1 v2 : T) (e1 : error E) (e2 : error F), e1 ≠ none → e2 ≠ none →
      (Wrap v1 e1 : option T) = Wrap v2 e2) := by
  have hN : ∀ {X : Type} (w : T) (e : error X), e ≠ none → (Wrap w e : option T) = Nothing := by
    intro X w e he
    cases e with
    | none => exact absurd rfl he
    | some e => simp [Wrap]
  refine ⟨hN v err, ?_, ?_⟩
  · intro h
    simp [Wrap, h]
  · intro v1 v2 e1 e2 h1 h2
    rw [hN v1 e1 h1, hN v2 e2 h2]

/-- C16 on the two calls of `TestWrap`, and on two failed wraps with different
values and errors. -/
theorem option_Wrap_spec_witness :
    (Wrap 0 (some "divide by zero") : option Nat) = Nothing ∧
    (Wrap 3 (none : error String) : option Nat) = Some 3 ∧
    (Wrap 1 (some "first") : option Nat) = Wrap 2 (some 404) :=
  ⟨(option_Wrap_spec (F := Nat) 0 (some "divide by zero")).1 (by decide),
    (option_Wrap_spec (F := Nat) 3 (none : error String)).2.1 rfl,
    (option_Wrap_spec (F := Nat) 0 (some "x")).2.2 1 2 (some "first") (some 404)
      (by decide) (by decide)⟩

/-- C17: the invariant `Canonical` holds of every option built by `Some`,
`Nothing` and `Wrap`, and is preserved by `Lift(f)`, `Lift2(f)` and `Bind(f)` (for
`f` returning options that satisfy it); an option satisfying it has exactly one
of `IsSome()`, `IsNothing()` true, and when it is Nothing-valued it stores the
zero value of `T`, that is, it equals `Nothing[T]()`. -/
theorem option_Canonical_invariant
    [Inhabited T] [Inhabited R] [Inhabited A] [Inhabited B] [Inhabited C] :
    (∀ x : T, Canonical (Some x)) ∧
    Canonical (Nothing : option T) ∧
    (∀ (v : T) (err : error E), Canonical (Wrap v err : option T)) ∧
    (∀ (f : T → R) (x : option T), Canonical x → Canonical (Lift f x)) ∧
    (∀ (f : A → B → C) (x : option A) (y : option B),
      Canonical x → Canonical y → Canonical (Lift2 f x y)) ∧
    (∀ (f : T → option R) (x : option T),
      (∀ t : T, Canonical (f t)) → Canonical x → Canonical (Bind f x)) ∧
    (∀ o : option T, Canonical o →
      ((o.IsSome = true ∧ o.IsNothing = false) ∨ (o.IsSome = false ∧ o.IsNothing = true)) ∧
      (o.IsNothing = true → o.maybeValue = default ∧ o = Nothing)) := by
  have hS : ∀ {X : Type} [Inhabited X] (x : X), Canonical (Some x) := by
    intro X _ x
    simp [Canonical, Some, option.IsSome, option.IsNothing]
  have hN : ∀ {X : Type} [Inhabited X], Canonical (Nothing : option X) := by
    intro X _
    simp [Canonical, Nothing, option.IsSome, option.IsNothing]
  refine ⟨hS, hN, ?_, ?_, ?_, ?_, ?_⟩
  · intro v err
    cases err with
    | none => simpa [Wrap] using hS v
    | some e => simpa [Wrap] using (hN : Canonical (Nothing : option T))
  · intro f x _
    rcases x with ⟨xv, _ | _⟩
    · simpa [Lift, option.Unwrap, errors.New] using (hN : Canonical (Nothing : option R))
    · simpa [Lift, option.Unwrap] using hS (f xv)
  · intro f x y _ _
    rcases x with ⟨xv, _ | _⟩ <;> rcases y with ⟨yv, _ | _⟩
    · simpa [Lift2, option.Unwrap, errors.New] using (hN : Canonical (Nothing : option C))
    · simpa [Lift2, option.Unwrap, errors.New] using (hN : Canonical (Nothing : option C))
    · simpa [Lift2, option.Unwrap, errors.New] using (hN : Canonical (Nothing : option C))
    · simpa [Lift2, option.Unwrap] using hS (f xv yv)
  · intro f x hf _
    rcases x with ⟨xv, _ | _⟩
    · simpa [Bind, option.Unwrap, errors.New] using (hN : Canonical (Nothing : option R))
    · simpa [Bind, option.Unwrap] using hf xv
  · intro o ho
    refine ⟨ho.1, ?_⟩
    intro hno
    have hv : o.maybeValue = default := ho.2 hno
    refine ⟨hv, ?_⟩
    rcases o with ⟨v, _ | _⟩
    · simp only at hv
      simp [Nothing, hv]
    · simp [option.IsNothing] at hno

/-- C17 at concrete operands: `Lift` and `Bind` keep the invariant, and a
Nothing-valued option built by `Wrap` equals `Nothing`. -/
theorem option_Canonical_invariant_witness :
    Canonical (Lift (fun n : Nat => n + 1) (Nothing : option Nat)) ∧
    Canonical (Bind (fun n : Nat => (Some (n + 1) : option Nat)) (Some 3)) ∧
    ((Wrap 7 (some "e") : option Nat).maybeValue = 0 ∧
      (Wrap 7 (some "e") : option Nat) = Nothing) :=
  ⟨(option_Canonical_invariant (E := String) (T := Nat) (R := Nat) (A := Nat) (B := Nat)
      (C := Nat)).2.2.2.1 (fun n : Nat => n + 1) Nothing (by decide),
    (option_Canonical_invariant (E := String) (T := Nat) (R := Nat) (A := Nat) (B := Nat)
      (C := Nat)).2.2.2.2.2.1 (fun n : Nat => (Some (n + 1) : option Nat)) (Some 3)
      (fun t => by simp [Canonical, Some, option.IsSome, option.IsNothing]) (by decide),
    ((option_Canonical_invariant (E := String) (T := Nat) (R := Nat) (A := Nat) (B := Nat)
      (C := Nat)).2.2.2.2.2.2 (Wrap 7 (some "e")) (by decide)).2 (by decide)⟩

/-- The invariant of Option is not vacuous: a struct value that is Nothing-valued
and stores a non-zero value violates it (no function of the package builds one). -/
lemma not_Canonical_of_stale_value :
    ¬ Canonical ({ maybeValue := 5, isSome := false } : option Nat) := by
  decide

end option

/-! ## Algebraic laws of package `result` -/

namespace result

variable {E T R A B C D : Type}

/-- C18: unwrapping `Ok(v)` yields a value with a nil error, and wrapping that
value with `Ok` again gives a container equal to `Ok(v)`. -/
theorem result_Ok_round_trip [Inhabited T] (v : T) :
    (Ok v : result E T).Unwrap.2 = none ∧
    (Ok (Ok v : result E T).Unwrap.1 : result E T) = Ok v := by
  simp [Ok, result.Unwrap]

/-- C19: Kleisli composition is associative: `Kliesli(Kliesli(f, g), h)(a)` equals
`Kliesli(f, Kliesli(g, h))(a)`, the returned error included. -/
theorem result_Kliesli_assoc [Inhabited B] [Inhabited C] [Inhabited D]
    (f : A → result E B) (g : B → result E C) (h : C → result E D) (a : A) :
    Kliesli (Kliesli f g) h a = Kliesli f (Kliesli g h) a := by
  rcases hfa : f a with ⟨bv, _ | eb⟩
  · simp [Kliesli, Bind, result.Unwrap, hfa]
  · simp [Kliesli, Bind, result.Unwrap, hfa, Error]

/-- C20: `Ok` is the identity of Kleisli composition: `Kliesli(Ok, g)(a)` equals
`g(a)`; and when `f(a)` is built by `Ok` or by `Error`, `Kliesli(f, Ok)(a)` equals
`f(a)`, that is, `Bind(Ok)(r)` equals `r` for every `r` built by `Ok` or `Error`. -/
theorem result_Kliesli_identity [Inhabited A] [Inhabited B]
    (f g : A → result E B) (a : A)
    (hf : (∃ b : B, f a = Ok b) ∨ (∃ err : error E, f a = Error err)) :
    Kliesli (fun x : A => (Ok x : result E A)) g a = g a ∧
    Kliesli f (fun b : B => (Ok b : result E B)) a = f a ∧
    (∀ r : result E B, ((∃ b : B, r = Ok b) ∨ (∃ err : error E, r = Error err)) →
      Bind (fun b : B => (Ok b : result E B)) r = r) := by
  have hR : ∀ r : result E B, ((∃ b : B, r = Ok b) ∨ (∃ err : error E, r = Error err)) →
      Bind (fun b : B => (Ok b : result E B)) r = r := by
    intro r hr
    rcases hr with ⟨b, rfl⟩ | ⟨err, rfl⟩
    · simp [Bind, Ok, result.Unwrap]
    · cases err <;> simp [Bind, Ok, Error, result.Unwrap]
  refine ⟨?_, ?_, hR⟩
  · simp [Kliesli, Bind, Ok, result.Unwrap]
  · exact hR (f a) hf

/-- C20 on the first stage of `TestKliesli` at the forbidden input, where it is
built by `Error`. -/
theorem result_Kliesli_identity_witness :
    Kliesli
        (fun s : String =>
          if s = "fnord" then (Error (some "forbidden string") : result String Nat)
          else Ok s.length)
        (fun b : Nat => (Ok b : result String Nat)) "fnord"
      = (Error (some "forbidden string") : result String Nat) :=
  (result_Kliesli_identity
    (fun s : String =>
      if s = "fnord" then (Error (some "forbidden string") : result String Nat)
      else Ok s.length)
    (fun s : String =>
      if s = "fnord" then (Error (some "forbidden string") : result String Nat)
      else Ok s.length)
    "fnord" (Or.inr ⟨some "forbidden string", by decide⟩)).2.1.trans (by decide)

end result
